import Mathlib

/-
Verification of the build-and-package script build_all.py of
somedding/PIC_Simple_Selector.

The script is shallowly embedded: the filesystem is an explicit state
(directories, files as an association list from path to file data, and the
archives created so far), each Python library call becomes a pure state
transformer, and a trace of events records the order in which the stages run.
A raised exception is modelled by an error field that, once set, makes every
later step a no-op, exactly as an uncaught Python exception skips the rest of
the program.
-/

set_option autoImplicit false
set_option maxRecDepth 100000

namespace BuildAll

/-- Observable attributes of a file: its raw content, the text encoding it was
written with (when it was written as text), and the metadata that
shutil.copy2 preserves (modification time and permission bits). -/
structure FileData where
  content : String
  encoding : Option String
  mtime : Nat
  mode : Nat
deriving Repr, DecidableEq

/-- An archive produced by shutil.make_archive: its base name, its format
string, and the snapshot of the entries under the root directory at the moment
the archive was created. -/
structure Archive where
  base : String
  fmt : String
  entries : List (String × FileData)
deriving Repr, DecidableEq

/-- The filesystem state: the set of existing directories, the files
(path mapped to file data), and the archives created so far. -/
structure FS where
  dirs : List String
  files : List (String × FileData)
  archives : List Archive
deriving Repr, DecidableEq

/-- The exceptions the script can raise, together with the descriptive
binary-not-found error that the specification asks for (the code itself never
raises the descriptive one). -/
inductive Err where
  | copyFileNotFound : String → Err
  | dirAlreadyExists : String → Err
  | binaryNotFound : String → Err
deriving Repr, DecidableEq

/-- Events recorded in the execution trace, one per library call made by the
script, plus one for a raised exception. -/
inductive Ev where
  | build : Nat → Ev
  | mkdir : String → Ev
  | copyEv : String → String → Ev
  | writeEv : String → Ev
  | archiveEv : String → String → String → Ev
  | raised : Err → Ev
deriving Repr, DecidableEq

/-- The full program state: the filesystem, the trace of completed calls, and
the exception currently propagating, if any. -/
structure St where
  fs : FS
  trace : List Ev
  err : Option Err
deriving Repr, DecidableEq

/-- First file data stored under a path in an association list. -/
def lookupFile (p : String) : List (String × FileData) → Option FileData
  | [] => none
  | e :: rest => if e.1 = p then some e.2 else lookupFile p rest

/-- Store data under a path, replacing any entry with the same path. -/
def setFile (p : String) (fd : FileData) (l : List (String × FileData)) :
    List (String × FileData) :=
  l.filter (fun e => e.1 != p) ++ [(p, fd)]

/-- Boolean test that one character list starts with another. -/
def charsLe : List Char → List Char → Bool
  | [], _ => true
  | _ :: _, [] => false
  | a :: as, b :: bs => a == b && charsLe as bs

/-- Boolean test that the string s starts with the string pre. -/
def strStarts (pre s : String) : Bool := charsLe pre.data s.data

/-- The files lying under a directory: those whose path starts with the
directory name followed by a slash. -/
def entriesUnder (root : String) (l : List (String × FileData)) :
    List (String × FileData) :=
  l.filter (fun e => strStarts (root ++ "/") e.1)

/-- Record an event in the trace. -/
def emit (e : Ev) (s : St) : St := { s with trace := s.trace ++ [e] }

/-- Raise an exception: it is recorded and starts propagating. -/
def failWith (e : Err) (s : St) : St :=
  { s with err := some e, trace := s.trace ++ [Ev.raised e] }

/-- Run one statement unless an exception is already propagating. -/
def step (f : St → St) (s : St) : St := if s.err.isSome then s else f s

/-- Embedding of os.makedirs(p, exist_ok): creates the directory; when the
directory already exists it is silent if exist_ok holds and raises
otherwise. -/
def makedirs (p : String) (exist_ok : Bool) (s : St) : St :=
  if s.fs.dirs.contains p then
    if exist_ok then emit (Ev.mkdir p) s else failWith (Err.dirAlreadyExists p) s
  else
    emit (Ev.mkdir p) { s with fs := { s.fs with dirs := p :: s.fs.dirs } }

/-- Embedding of shutil.copy2(src, dst): copies the file content together with
its metadata (modification time and permission bits); raises the generic
FileNotFoundError when the source file is absent. -/
def copy2 (src dst : String) (s : St) : St :=
  match lookupFile src s.fs.files with
  | none => failWith (Err.copyFileNotFound src) s
  | some fd =>
      emit (Ev.copyEv src dst)
        { s with fs := { s.fs with files := setFile dst fd s.fs.files } }

/-- The file data produced by writing a text file in UTF-8 mode. -/
def writtenFile (text : String) : FileData :=
  { content := text, encoding := some "utf-8", mtime := 0, mode := 420 }

/-- Embedding of open(path, w, encoding utf-8) followed by a single write:
creates or overwrites the file with the text, encoded as UTF-8. -/
def writeTextUtf8 (p : String) (text : String) (s : St) : St :=
  emit (Ev.writeEv p)
    { s with fs := { s.fs with files := setFile p (writtenFile text) s.fs.files } }

/-- Embedding of shutil.make_archive(base, fmt, root): bundles the files that
lie under root into a new archive. -/
def make_archive (base fmt root : String) (s : St) : St :=
  emit (Ev.archiveEv base fmt root)
    { s with fs := { s.fs with archives :=
        s.fs.archives ++ [⟨base, fmt, entriesUnder root s.fs.files⟩] } }

/-- The fixed README.txt text written by create_package (build_all.py lines
25 to 34). -/
def readmeText : String :=
"PhotoSelector\n\n사용 방법:\n1. PhotoSelector 실행\n2. \"Select Folder\" 버튼을 클릭하여 사진이 있는 폴더 선택\n3. 키보드 단축키:\n   - 좌/우 화살표: 이전/다음 사진\n   - S: 현재 사진 선택\n   - D: 현재 사진 삭제\n"

/-- Source path of the built binary (build_all.py lines 14 to 19). -/
def copySrc (plat : String) : String :=
  if plat = "Windows" then "target/release/photo-selector.exe"
  else "target/release/photo-selector"

/-- Destination path of the binary inside the staging directory (build_all.py
lines 14 to 19). -/
def copyDst (plat : String) : String :=
  if plat = "Windows" then "PhotoSelector/PhotoSelector.exe"
  else "PhotoSelector/PhotoSelector"

/-- Archive base name chosen by the branch on platform.system() (build_all.py
lines 37 to 42). -/
def archiveBase (plat : String) : String :=
  if plat = "Windows" then "PhotoSelector-Windows"
  else if plat = "Darwin" then "PhotoSelector-Mac"
  else "PhotoSelector-Linux"

/-- Archive format chosen by the branch on platform.system() (build_all.py
lines 37 to 42). -/
def archiveFmt (plat : String) : String :=
  if plat = "Windows" then "zip"
  else if plat = "Darwin" then "zip"
  else "gztar"

/-- Embedding of create_package (build_all.py lines 9 to 42): make the staging
directory, copy the binary, write the README, archive the staging directory. -/
def create_package (plat : String) (s : St) : St :=
  let s1 := step (makedirs "PhotoSelector" true) s
  let s2 := step (copy2 (copySrc plat) (copyDst plat)) s1
  let s3 := step (writeTextUtf8 "PhotoSelector/README.txt" readmeText) s2
  step (make_archive (archiveBase plat) (archiveFmt plat) "PhotoSelector") s3

/-- Embedding of build_release (build_all.py lines 6 to 7): it calls
subprocess.run on the cargo build command without checking the exit status, so
a non-zero exit code does not raise. -/
def build_release (exitCode : Nat) (s : St) : St :=
  step (emit (Ev.build exitCode)) s

/-- Embedding of the main block (build_all.py lines 44 to 46). -/
def main_run (plat : String) (exitCode : Nat) (s : St) : St :=
  create_package plat (build_release exitCode s)

/-- The executable file name in the staging directory for each platform, as
claim C1 states it. -/
def claimedDstName (plat : String) : String :=
  if plat = "Windows" then "PhotoSelector.exe" else "PhotoSelector"

/-- The archive base name for each platform, as claim C1 states it. -/
def claimedArchiveBase (plat : String) : String :=
  if plat = "Windows" then "PhotoSelector-Windows"
  else if plat = "Darwin" then "PhotoSelector-Mac"
  else "PhotoSelector-Linux"

/-- The archive container format for each platform, as claim C2 states it. -/
def claimedArchiveFmt (plat : String) : String :=
  if plat = "Windows" ∨ plat = "Darwin" then "zip" else "gztar"

/- Helper lemmas about the association-list filesystem. -/

theorem lookupFile_append (p : String) (l m : List (String × FileData)) :
    lookupFile p (l ++ m) =
      match lookupFile p l with
      | some v => some v
      | none => lookupFile p m := by
  induction l with
  | nil => simp [lookupFile]
  | cons e rest ih =>
      by_cases h : e.1 = p
      · simp [lookupFile, h]
      · simp [lookupFile, h, ih]

theorem lookupFile_filter_key (f0 : String → Bool) (p : String)
    (l : List (String × FileData)) :
    lookupFile p (l.filter (fun e => f0 e.1)) =
      if f0 p then lookupFile p l else none := by
  induction l with
  | nil => simp [lookupFile]
  | cons e rest ih =>
      by_cases h : e.1 = p
      · subst h
        by_cases hf : f0 e.1
        · simp [List.filter, lookupFile, hf, ih]
        · simp only [List.filter, hf]
          simp only [Bool.false_eq_true, if_false] at *
          simp [ih, hf]
      · by_cases hf : f0 e.1
        · simp [List.filter, lookupFile, hf, h, ih]
        · simp [List.filter, lookupFile, hf, h, ih]

theorem lookupFile_setFile_same (p : String) (fd : FileData)
    (l : List (String × FileData)) :
    lookupFile p (setFile p fd l) = some fd := by
  unfold setFile
  rw [lookupFile_append]
  have h : lookupFile p (l.filter (fun e => e.1 != p)) = none := by
    have := lookupFile_filter_key (fun q => q != p) p l
    simpa using this
  rw [h]
  simp [lookupFile]

theorem lookupFile_setFile_other (p q : String) (fd : FileData)
    (l : List (String × FileData)) (hpq : p ≠ q) :
    lookupFile p (setFile q fd l) = lookupFile p l := by
  unfold setFile
  rw [lookupFile_append]
  have h : lookupFile p (l.filter (fun e => e.1 != q)) = lookupFile p l := by
    have := lookupFile_filter_key (fun r => r != q) p l
    simpa [hpq] using this
  rw [h]
  cases hl : lookupFile p l with
  | some v => rfl
  | none => simp [lookupFile, Ne.symm hpq]

theorem filter_filter_nil (f g : (String × FileData) → Bool)
    (l : List (String × FileData)) (h : l.filter g = []) :
    (l.filter f).filter g = [] := by
  induction l with
  | nil => simp
  | cons e rest ih =>
      by_cases hg : g e
      · simp [List.filter, hg] at h
      · have h' : rest.filter g = [] := by simpa [List.filter, hg] using h
        by_cases hf : f e
        · simp [List.filter, hf, hg, ih h']
        · simp [List.filter, hf, ih h']

theorem entriesUnder_append (root : String) (l m : List (String × FileData)) :
    entriesUnder root (l ++ m) = entriesUnder root l ++ entriesUnder root m := by
  simp [entriesUnder, List.filter_append]

/-- On a run where no exception is already propagating and the source binary
is present, create_package executes all four stages and the final state is
given explicitly. -/
theorem create_package_eq (plat : String) (s : St) (fd : FileData)
    (herr : s.err = none)
    (hsrc : lookupFile (copySrc plat) s.fs.files = some fd) :
    create_package plat s =
      { fs := { dirs := if s.fs.dirs.contains "PhotoSelector" then s.fs.dirs
                        else "PhotoSelector" :: s.fs.dirs,
                files := setFile "PhotoSelector/README.txt" (writtenFile readmeText)
                          (setFile (copyDst plat) fd s.fs.files),
                archives := s.fs.archives ++
                  [⟨archiveBase plat, archiveFmt plat,
                    entriesUnder "PhotoSelector"
                      (setFile "PhotoSelector/README.txt" (writtenFile readmeText)
                        (setFile (copyDst plat) fd s.fs.files))⟩] },
        trace := s.trace ++
          [Ev.mkdir "PhotoSelector",
           Ev.copyEv (copySrc plat) (copyDst plat),
           Ev.writeEv "PhotoSelector/README.txt",
           Ev.archiveEv (archiveBase plat) (archiveFmt plat) "PhotoSelector"],
        err := none } := by
  by_cases hd : "PhotoSelector" ∈ s.fs.dirs
  · simp [create_package, step, makedirs, copy2, writeTextUtf8, make_archive,
      emit, herr, hsrc, hd]
  · simp [create_package, step, makedirs, copy2, writeTextUtf8, make_archive,
      emit, herr, hsrc, hd]

theorem copyDst_eq_claimed (plat : String) :
    copyDst plat = "PhotoSelector/" ++ claimedDstName plat := by
  unfold copyDst claimedDstName
  by_cases h : plat = "Windows" <;> simp [h]

theorem archiveBase_eq_claimed (plat : String) :
    archiveBase plat = claimedArchiveBase plat := rfl

theorem archiveFmt_eq_claimed (plat : String) :
    archiveFmt plat = claimedArchiveFmt plat := by
  unfold archiveFmt claimedArchiveFmt
  by_cases h1 : plat = "Windows"
  · simp [h1]
  · by_cases h2 : plat = "Darwin" <;> simp [h1, h2]

theorem copyDst_ne_readme (plat : String) :
    copyDst plat ≠ "PhotoSelector/README.txt" := by
  unfold copyDst
  by_cases h : plat = "Windows" <;> simp [h]

theorem strStarts_copyDst (plat : String) :
    strStarts ("PhotoSelector" ++ "/") (copyDst plat) = true := by
  unfold copyDst
  by_cases h : plat = "Windows" <;> simp [h] <;> decide

theorem strStarts_readme :
    strStarts ("PhotoSelector" ++ "/") "PhotoSelector/README.txt" = true := by
  decide

theorem lookupFile_entriesUnder (root p : String) (l : List (String × FileData))
    (h : strStarts (root ++ "/") p = true) :
    lookupFile p (entriesUnder root l) = lookupFile p l := by
  unfold entriesUnder
  rw [lookupFile_filter_key (fun q => strStarts (root ++ "/") q) p l]
  simp [h]

/- Concrete states used to instantiate the theorems. -/

/-- A sample binary file with nontrivial metadata. -/
def binFile : FileData :=
  { content := "ELF", encoding := none, mtime := 1700000000, mode := 493 }

/-- A sample unrelated file. -/
def junkFile : FileData :=
  { content := "notes", encoding := none, mtime := 5, mode := 420 }

/-- A start state with both possible binaries present and nothing else. -/
def st0 : St :=
  { fs := { dirs := [],
            files := [("target/release/photo-selector", binFile),
                      ("target/release/photo-selector.exe", binFile)],
            archives := [] },
    trace := [], err := none }

/-- A start state with no files at all. -/
def stEmpty : St :=
  { fs := { dirs := [], files := [], archives := [] }, trace := [], err := none }

/-- A start state where the staging directory already holds an unrelated
file. -/
def stJunk : St :=
  { fs := { dirs := ["PhotoSelector"],
            files := [("target/release/photo-selector", binFile),
                      ("PhotoSelector/notes.txt", junkFile)],
            archives := [] },
    trace := [], err := none }

/-- A start state where the staging directory already holds a stale
README.txt. -/
def stStale : St :=
  { fs := { dirs := ["PhotoSelector"],
            files := [("target/release/photo-selector", binFile),
                      ("PhotoSelector/README.txt", junkFile)],
            archives := [] },
    trace := [], err := none }

/-- The archives of a run never shrink: they stay unchanged or gain exactly
the one archive chosen by the platform branch. -/
theorem create_package_archives (plat : String) (s : St) :
    (create_package plat s).fs.archives = s.fs.archives ∨
    ∃ es, (create_package plat s).fs.archives =
      s.fs.archives ++ [⟨archiveBase plat, archiveFmt plat, es⟩] := by
  cases herr : s.err with
  | some e => left; simp [create_package, step, herr]
  | none =>
      cases hsrc : lookupFile (copySrc plat) s.fs.files with
      | none =>
          left
          by_cases hd : "PhotoSelector" ∈ s.fs.dirs <;>
            simp [create_package, step, makedirs, copy2, failWith, emit,
              herr, hsrc, hd]
      | some fd =>
          right
          exact ⟨_, by rw [create_package_eq plat s fd herr hsrc]⟩

/- Claim theorems. -/

/-- Claim C1: for every host platform identifier, create_package places the
executable in the staging directory under the claimed destination name
(PhotoSelector.exe for the identifier Windows, PhotoSelector otherwise) and
adds exactly one archive whose base name follows the claimed mapping
(PhotoSelector-Windows for Windows, PhotoSelector-Mac for Darwin,
PhotoSelector-Linux for every other identifier). -/
theorem c1_platform_selection (plat : String) (s : St) (fd : FileData)
    (herr : s.err = none)
    (hsrc : lookupFile (copySrc plat) s.fs.files = some fd) :
    lookupFile ("PhotoSelector/" ++ claimedDstName plat)
        (create_package plat s).fs.files = some fd
    ∧ (create_package plat s).fs.archives.map Archive.base =
        s.fs.archives.map Archive.base ++ [claimedArchiveBase plat] := by
  rw [create_package_eq plat s fd herr hsrc]
  constructor
  · rw [← copyDst_eq_claimed,
      lookupFile_setFile_other _ _ _ _ (copyDst_ne_readme plat)]
    exact lookupFile_setFile_same _ _ _
  · simp [archiveBase_eq_claimed]

theorem c1_platform_selection_witness :
    lookupFile ("PhotoSelector/" ++ claimedDstName "Darwin")
        (create_package "Darwin" st0).fs.files = some binFile
    ∧ (create_package "Darwin" st0).fs.archives.map Archive.base =
        st0.fs.archives.map Archive.base ++ [claimedArchiveBase "Darwin"] :=
  c1_platform_selection "Darwin" st0 binFile (by decide) (by decide)

/-- Claim C2: in every run of create_package, whatever the starting state,
every archive the run adds has the container format determined solely by the
platform identifier: zip for Windows and for Darwin, gzip-compressed tar for
every other identifier. -/
theorem c2_archive_format (plat : String) (s : St) :
    ∀ a ∈ (create_package plat s).fs.archives, a ∉ s.fs.archives →
      a.fmt = claimedArchiveFmt plat := by
  intro a ha hnew
  rcases create_package_archives plat s with h | ⟨es, h⟩
  · rw [h] at ha
    exact absurd ha hnew
  · rw [h] at ha
    rcases List.mem_append.mp ha with h1 | h1
    · exact absurd h1 hnew
    · have h2 : a = ⟨archiveBase plat, archiveFmt plat, es⟩ := by
        simpa using h1
      rw [h2]
      exact archiveFmt_eq_claimed plat

/-- The archive created by the sample Darwin run. -/
def macArchive : Archive :=
  (create_package "Darwin" st0).fs.archives.getD 0 ⟨"", "", []⟩

theorem c2_archive_format_witness :
    macArchive.fmt = claimedArchiveFmt "Darwin" :=
  c2_archive_format "Darwin" st0 macArchive (by decide) (by decide)

/-- Claim C3: when the expected source binary is absent, create_package stops
with the generic FileNotFoundError raised by shutil.copy2 and not with the
descriptive binary-not-found error the claim requires, and no archive at all
is produced. The no-archive half of the claim holds on the code; the
descriptive-error half does not. -/
theorem c3_missing_binary_behaviour :
    (create_package "Linux" stEmpty).err =
        some (Err.copyFileNotFound "target/release/photo-selector")
    ∧ (create_package "Linux" stEmpty).err ≠
        some (Err.binaryNotFound "target/release/photo-selector")
    ∧ (create_package "Linux" stEmpty).fs.archives = [] := by
  decide

/-- Claim C4: the main block never checks the build exit status: with a build
tool exit code of 1 the whole packaging still runs (staging directory, copy,
README, archive all happen), so the process does not stop before packaging as
the claim requires. -/
theorem c4_failed_build_still_packages :
    (main_run "Linux" 1 st0).trace =
      [Ev.build 1, Ev.mkdir "PhotoSelector",
       Ev.copyEv "target/release/photo-selector" "PhotoSelector/PhotoSelector",
       Ev.writeEv "PhotoSelector/README.txt",
       Ev.archiveEv "PhotoSelector-Linux" "gztar" "PhotoSelector"]
    ∧ (main_run "Linux" 1 st0).err = none := by
  decide

/-- Claim C5: on every run with the source binary present, whatever the
starting state held, the README.txt in the staging directory afterwards is
exactly the file written by the script: its content is the fixed literal text
and it is marked as written in UTF-8; any previous file of that name has been
replaced. -/
theorem c5_readme_utf8_exact (plat : String) (s : St) (fd : FileData)
    (herr : s.err = none)
    (hsrc : lookupFile (copySrc plat) s.fs.files = some fd) :
    lookupFile "PhotoSelector/README.txt" (create_package plat s).fs.files =
      some (writtenFile readmeText)
    ∧ (writtenFile readmeText).content = readmeText
    ∧ (writtenFile readmeText).encoding = some "utf-8" := by
  refine ⟨?_, rfl, rfl⟩
  rw [create_package_eq plat s fd herr hsrc]
  exact lookupFile_setFile_same _ _ _

theorem c5_readme_utf8_exact_witness :
    lookupFile "PhotoSelector/README.txt"
        (create_package "Linux" stStale).fs.files = some (writtenFile readmeText)
    ∧ (writtenFile readmeText).content = readmeText
    ∧ (writtenFile readmeText).encoding = some "utf-8" :=
  c5_readme_utf8_exact "Linux" stStale binFile (by decide) (by decide)

/-- Claim C6: creating the staging directory twice in a row with the exist_ok
flag raises no error, and a run of create_package with the binary present
leaves every pre-existing file other than the copied executable and
README.txt exactly as it was. -/
theorem c6_idempotent_mkdir_and_frame (plat : String) (s : St) (fd : FileData)
    (p : String) (pfd : FileData)
    (herr : s.err = none)
    (hsrc : lookupFile (copySrc plat) s.fs.files = some fd)
    (hp : lookupFile p s.fs.files = some pfd)
    (hdst : p ≠ copyDst plat) (hrm : p ≠ "PhotoSelector/README.txt") :
    (makedirs "PhotoSelector" true (makedirs "PhotoSelector" true s)).err = none
    ∧ lookupFile p (create_package plat s).fs.files = some pfd := by
  constructor
  · by_cases hdir : "PhotoSelector" ∈ s.fs.dirs <;>
      simp [makedirs, emit, herr, hdir]
  · rw [create_package_eq plat s fd herr hsrc,
      lookupFile_setFile_other _ _ _ _ hrm,
      lookupFile_setFile_other _ _ _ _ hdst]
    exact hp

theorem c6_idempotent_mkdir_and_frame_witness :
    (makedirs "PhotoSelector" true (makedirs "PhotoSelector" true stJunk)).err = none
    ∧ lookupFile "PhotoSelector/notes.txt"
        (create_package "Linux" stJunk).fs.files = some junkFile :=
  c6_idempotent_mkdir_and_frame "Linux" stJunk binFile
    "PhotoSelector/notes.txt" junkFile
    (by decide) (by decide) (by decide) (by decide) (by decide)

/-- Claim C7: with the binary present, a run of the entry point performs
exactly the stages build, staging-directory creation, binary copy, README
write, archive creation, in this order; the staging directory is present in
the state in which the copy runs; and every archive the run produces already
contains both the copied executable and the README, so the archive is created
only after staging is complete. -/
theorem c7_stage_order (plat : String) (exitCode : Nat) (s : St) (fd : FileData)
    (herr : s.err = none) (htrace : s.trace = []) (harch : s.fs.archives = [])
    (hsrc : lookupFile (copySrc plat) s.fs.files = some fd) :
    (main_run plat exitCode s).trace =
      [Ev.build exitCode, Ev.mkdir "PhotoSelector",
       Ev.copyEv (copySrc plat) (copyDst plat),
       Ev.writeEv "PhotoSelector/README.txt",
       Ev.archiveEv (archiveBase plat) (archiveFmt plat) "PhotoSelector"]
    ∧ "PhotoSelector" ∈
        (makedirs "PhotoSelector" true (build_release exitCode s)).fs.dirs
    ∧ ∀ a ∈ (main_run plat exitCode s).fs.archives,
        lookupFile (copyDst plat) a.entries = some fd
        ∧ lookupFile "PhotoSelector/README.txt" a.entries =
            some (writtenFile readmeText) := by
  have hb : build_release exitCode s = emit (Ev.build exitCode) s := by
    simp [build_release, step, herr]
  have herr1 : (emit (Ev.build exitCode) s).err = none := by simp [emit, herr]
  have hsrc1 : lookupFile (copySrc plat) (emit (Ev.build exitCode) s).fs.files =
      some fd := by simpa [emit] using hsrc
  have hmain : main_run plat exitCode s =
      create_package plat (emit (Ev.build exitCode) s) := by
    rw [main_run, hb]
  refine ⟨?_, ?_, ?_⟩
  · rw [hmain, create_package_eq plat _ fd herr1 hsrc1]
    simp [emit, htrace]
  · rw [hb]
    by_cases hdir : "PhotoSelector" ∈ s.fs.dirs <;>
      simp [makedirs, emit, hdir]
  · intro a ha
    rw [hmain, create_package_eq plat _ fd herr1 hsrc1] at ha
    simp only [emit, harch] at ha
    have h2 : a = ⟨archiveBase plat, archiveFmt plat,
        entriesUnder "PhotoSelector"
          (setFile "PhotoSelector/README.txt" (writtenFile readmeText)
            (setFile (copyDst plat) fd s.fs.files))⟩ := by
      simpa using ha
    rw [h2]
    constructor
    · show lookupFile (copyDst plat) (entriesUnder "PhotoSelector" _) = some fd
      rw [lookupFile_entriesUnder _ _ _ (strStarts_copyDst plat),
        lookupFile_setFile_other _ _ _ _ (copyDst_ne_readme plat)]
      exact lookupFile_setFile_same _ _ _
    · show lookupFile "PhotoSelector/README.txt"
        (entriesUnder "PhotoSelector" _) = some (writtenFile readmeText)
      rw [lookupFile_entriesUnder _ _ _ strStarts_readme]
      exact lookupFile_setFile_same _ _ _

theorem c7_stage_order_witness :
    (main_run "Windows" 0 st0).trace =
      [Ev.build 0, Ev.mkdir "PhotoSelector",
       Ev.copyEv (copySrc "Windows") (copyDst "Windows"),
       Ev.writeEv "PhotoSelector/README.txt",
       Ev.archiveEv (archiveBase "Windows") (archiveFmt "Windows") "PhotoSelector"]
    ∧ "PhotoSelector" ∈
        (makedirs "PhotoSelector" true (build_release 0 st0)).fs.dirs
    ∧ ∀ a ∈ (main_run "Windows" 0 st0).fs.archives,
        lookupFile (copyDst "Windows") a.entries = some binFile
        ∧ lookupFile "PhotoSelector/README.txt" a.entries =
            some (writtenFile readmeText) :=
  c7_stage_order "Windows" 0 st0 binFile
    (by decide) (by decide) (by decide) (by decide)

/-- Claim C8 counterexample: starting from a state in which the staging
directory already holds an unrelated file, a successful create_package run
leaves three files in the staging directory, with the unrelated file still in
place, so the directory does not contain exactly one executable and one
README.txt. -/
theorem c8_counterexample :
    (create_package "Linux" stJunk).err = none
    ∧ (entriesUnder "PhotoSelector"
        (create_package "Linux" stJunk).fs.files).length = 3
    ∧ lookupFile "PhotoSelector/notes.txt"
        (create_package "Linux" stJunk).fs.files = some junkFile := by
  decide

/-- Claim C8 (amended): on every run with the source binary present that
starts with no files in the staging directory, the staging directory
afterwards holds exactly two files: the copied executable at its
platform-dependent destination and README.txt with the fixed text. -/
theorem c8_exact_staging_contents (plat : String) (s : St) (fd : FileData)
    (herr : s.err = none)
    (hsrc : lookupFile (copySrc plat) s.fs.files = some fd)
    (hclean : entriesUnder "PhotoSelector" s.fs.files = []) :
    entriesUnder "PhotoSelector" (create_package plat s).fs.files =
      [(copyDst plat, fd),
       ("PhotoSelector/README.txt", writtenFile readmeText)] := by
  rw [create_package_eq plat s fd herr hsrc]
  have hclean0 : s.fs.files.filter
      (fun e => strStarts ("PhotoSelector" ++ "/") e.1) = [] := hclean
  have h1 : (s.fs.files.filter (fun e => e.1 != copyDst plat)).filter
      (fun e => strStarts ("PhotoSelector" ++ "/") e.1) = [] :=
    filter_filter_nil _ _ _ hclean0
  have h2 : ((s.fs.files.filter (fun e => e.1 != copyDst plat)).filter
      (fun e => e.1 != "PhotoSelector/README.txt")).filter
      (fun e => strStarts ("PhotoSelector" ++ "/") e.1) = [] :=
    filter_filter_nil _ _ _ h1
  show entriesUnder "PhotoSelector"
      (setFile "PhotoSelector/README.txt" (writtenFile readmeText)
        (setFile (copyDst plat) fd s.fs.files)) = _
  unfold setFile entriesUnder
  simp only [List.filter_append, List.filter_cons, List.filter_nil]
  rw [h2]
  have hA : strStarts "PhotoSelector/" (copyDst plat) = true :=
    strStarts_copyDst plat
  have hB : strStarts "PhotoSelector/" "PhotoSelector/README.txt" = true :=
    strStarts_readme
  simp [copyDst_ne_readme plat, hA, hB]

theorem c8_exact_staging_contents_witness :
    entriesUnder "PhotoSelector" (create_package "Linux" st0).fs.files =
      [(copyDst "Linux", binFile),
       ("PhotoSelector/README.txt", writtenFile readmeText)] :=
  c8_exact_staging_contents "Linux" st0 binFile
    (by decide) (by decide) (by decide)

/-- Claim C9: the copy step behaves as shutil.copy2: the staged executable
carries the source file data unchanged, the same content together with the
same modification time and the same permission bits, not only the content. -/
theorem c9_copy_preserves_metadata (plat : String) (s : St) (fd : FileData)
    (herr : s.err = none)
    (hsrc : lookupFile (copySrc plat) s.fs.files = some fd) :
    ∃ g : FileData,
      lookupFile (copyDst plat) (create_package plat s).fs.files = some g
      ∧ g.content = fd.content ∧ g.mtime = fd.mtime ∧ g.mode = fd.mode := by
  refine ⟨fd, ?_, rfl, rfl, rfl⟩
  rw [create_package_eq plat s fd herr hsrc,
    lookupFile_setFile_other _ _ _ _ (copyDst_ne_readme plat)]
  exact lookupFile_setFile_same _ _ _

theorem c9_copy_preserves_metadata_witness :
    ∃ g : FileData,
      lookupFile (copyDst "Windows")
          (create_package "Windows" st0).fs.files = some g
      ∧ g.content = binFile.content ∧ g.mtime = binFile.mtime
      ∧ g.mode = binFile.mode :=
  c9_copy_preserves_metadata "Windows" st0 binFile (by decide) (by decide)

/-- Claim C10: the copy step branches only on the Windows identifier: every
non-Windows platform identifier, Darwin included, uses the same source path
target/release/photo-selector and the same destination path
PhotoSelector/PhotoSelector as Darwin does, and only the later archive-naming
step separates Darwin (base PhotoSelector-Mac) from the other non-Windows
identifiers (base PhotoSelector-Linux). -/
theorem c10_copy_branch_only_windows (plat : String) (h : plat ≠ "Windows") :
    copySrc plat = "target/release/photo-selector"
    ∧ copyDst plat = "PhotoSelector/PhotoSelector"
    ∧ copySrc plat = copySrc "Darwin"
    ∧ copyDst plat = copyDst "Darwin"
    ∧ archiveBase "Darwin" = "PhotoSelector-Mac"
    ∧ (plat ≠ "Darwin" → archiveBase plat = "PhotoSelector-Linux") := by
  refine ⟨by simp [copySrc, h], by simp [copyDst, h], ?_, ?_, by decide,
    fun h2 => by simp [archiveBase, h, h2]⟩
  · simp [copySrc, h]
  · simp [copyDst, h]

theorem c10_copy_branch_only_windows_witness :
    copySrc "Linux" = "target/release/photo-selector"
    ∧ copyDst "Linux" = "PhotoSelector/PhotoSelector"
    ∧ copySrc "Linux" = copySrc "Darwin"
    ∧ copyDst "Linux" = copyDst "Darwin"
    ∧ archiveBase "Darwin" = "PhotoSelector-Mac"
    ∧ ("Linux" ≠ "Darwin" → archiveBase "Linux" = "PhotoSelector-Linux") :=
  c10_copy_branch_only_windows "Linux" (by decide)

end BuildAll
